import Mathlib

/-!
Shallow embedding of the command-dispatch and error-handling pipeline of a
Discord bot template (sources: `src/utils/defineCommand.ts`,
`src/utils/errors.ts`, `src/utils/commandTemplate.ts`).

Pure functions of the source become Lean functions; the stateful pieces
(the process-wide cooldown maps, the error handler statics) become explicit
state passing.  Asynchronous replies are modelled as returned values.
Timestamps are milliseconds as `Nat`.  JavaScript `Map` objects with a
`?? default` read are modelled as total functions with that default.
-/

/-- Error codes of `errors.ts` (`export enum ErrorCode`). -/
inductive ErrorCode where
  | UNKNOWN_ERROR
  | INTERNAL_ERROR
  | NOT_IMPLEMENTED
  | COMMAND_NOT_FOUND
  | COMMAND_EXECUTION_ERROR
  | COMMAND_DISABLED
  | VALIDATION_ERROR
  | INVALID_ARGUMENT
  | MISSING_ARGUMENT
  | ARGUMENT_OUT_OF_RANGE
  | PERMISSION_DENIED
  | INSUFFICIENT_BOT_PERMISSIONS
  | OWNER_ONLY
  | COOLDOWN_ACTIVE
  | RATE_LIMITED
  | CONFIGURATION_ERROR
  | MISSING_ENV_VARIABLE
  | INVALID_CONFIGURATION
  | EXTERNAL_SERVICE_ERROR
  | DISCORD_API_ERROR
  | DATABASE_ERROR
  | NETWORK_ERROR
deriving DecidableEq

/-- Severity levels of `errors.ts` (`export enum ErrorSeverity`). -/
inductive ErrorSeverity where
  | LOW
  | MEDIUM
  | HIGH
  | CRITICAL
deriving DecidableEq

/-- The `ErrorContext` key-value map, modelled as an association list of
string pairs (only the keys and the merge behaviour matter here). -/
abbrev ErrorContext := List (String × String)

/-- JavaScript object spread `\x7b ...a, ...b \x7d`: keys of `b` override
keys of `a`. -/
def mergeContext (a b : ErrorContext) : ErrorContext :=
  a.filter (fun p => b.all (fun q => q.1 != p.1)) ++ b

/-- A failure value foreign to the typed taxonomy (a plain JavaScript
`Error`, e.g. a `TypeError`): its `name` and `message` fields. -/
structure JSError where
  name : String
  message : String
deriving DecidableEq

/-- The dynamic class of a taxonomy value, carrying the typed fields each
subclass of `BotError` adds.  `getUserMessage` dispatches on it exactly as
the JavaScript virtual call does. -/
inductive ErrorClass where
  | base
  | command (commandName : String) (userMessage : String)
  | validation (field : String) (expected : Option String)
  | permission (requiredPermissions : List String) (userPermissions : Option (List String))
  | cooldown (remainingTime : Nat) (commandName : String)
  | configuration (configKey : Option String)
  | externalService (serviceName : String) (statusCode : Option Nat) (retryable : Bool)
deriving DecidableEq

/-- The fields the `BotError` base class stores (`errors.ts`).  The creation
timestamp is not modelled (no claim mentions it); `cls` records the dynamic
class.  Field order: message, code, context, isOperational, severity,
originalError, cls. -/
structure BotError where
  message : String
  code : ErrorCode
  context : ErrorContext
  isOperational : Bool
  severity : ErrorSeverity
  originalError : Option JSError
  cls : ErrorClass
deriving DecidableEq

/-- The `BotError` base constructor: `new BotError(message, code, context,
originalError, severity)`.  It always sets `isOperational = true` and
produces a value of the base class. -/
def BotError.make (message : String) (code : ErrorCode) (context : ErrorContext)
    (originalError : Option JSError) (severity : ErrorSeverity) : BotError :=
  ⟨message, code, context, true, severity, originalError, .base⟩

/-- `new CommandError(message, commandName, userMessage?, context,
originalError?)`: code COMMAND_EXECUTION_ERROR, default severity MEDIUM,
`commandName` merged into the context. -/
def CommandError.make (message commandName : String) (userMessage : Option String)
    (context : ErrorContext) (originalError : Option JSError) : BotError :=
  ⟨message, .COMMAND_EXECUTION_ERROR, mergeContext context [("commandName", commandName)],
    true, .MEDIUM, originalError,
    .command commandName (userMessage.getD "An error occurred while executing this command.")⟩

/-- `new ValidationError(message, field, expected?, received?, context)`:
code VALIDATION_ERROR, severity LOW (the `received` value is not modelled;
no message or claim uses it). -/
def ValidationError.make (message field : String) (expected : Option String)
    (context : ErrorContext) : BotError :=
  ⟨message, .VALIDATION_ERROR, mergeContext context [("field", field)],
    true, .LOW, none, .validation field expected⟩

/-- `new PermissionError(requiredPermissions, userPermissions?, context)`:
the message lists the required permissions, code PERMISSION_DENIED,
severity LOW. -/
def PermissionError.make (requiredPermissions : List String)
    (userPermissions : Option (List String)) (context : ErrorContext) : BotError :=
  ⟨ "Missing required permissions: " ++ String.intercalate ", " requiredPermissions,
    .PERMISSION_DENIED, context, true, .LOW, none,
    .permission requiredPermissions userPermissions⟩

/-- `new CooldownError(remainingTime, commandName, context)`: code
COOLDOWN_ACTIVE, severity LOW, `commandName` merged into the context. -/
def CooldownError.make (remainingTime : Nat) (commandName : String)
    (context : ErrorContext) : BotError :=
  ⟨ "Command \"" ++ commandName ++ "\" is on cooldown. " ++ toString remainingTime
      ++ " seconds remaining.",
    .COOLDOWN_ACTIVE, mergeContext context [("commandName", commandName)],
    true, .LOW, none, .cooldown remainingTime commandName⟩

/-- `new ConfigurationError(message, configKey?, context)`: code
CONFIGURATION_ERROR, severity CRITICAL. -/
def ConfigurationError.make (message : String) (configKey : Option String)
    (context : ErrorContext) : BotError :=
  ⟨message, .CONFIGURATION_ERROR,
    mergeContext context [("configKey", configKey.getD "")],
    true, .CRITICAL, none, .configuration configKey⟩

/-- `new ExternalServiceError(message, serviceName, statusCode?, retryable,
context, originalError?)`: code EXTERNAL_SERVICE_ERROR, severity HIGH. -/
def ExternalServiceError.make (message serviceName : String) (statusCode : Option Nat)
    (retryable : Bool) (context : ErrorContext) (originalError : Option JSError) : BotError :=
  ⟨message, .EXTERNAL_SERVICE_ERROR,
    mergeContext context [("serviceName", serviceName)],
    true, .HIGH, originalError, .externalService serviceName statusCode retryable⟩

/-- Virtual `getUserMessage()`: the base class returns a generic sentence;
each subclass overrides it with a message derived from its own fields
(`errors.ts`). -/
def BotError.getUserMessage (e : BotError) : String :=
  match e.cls with
  | .base => "An error occurred while processing your request."
  | .command _ userMessage => userMessage
  | .validation field (some expected) =>
      "Invalid value for \"" ++ field ++ "\". Expected " ++ expected ++ "."
  | .validation field none => "Invalid value for \"" ++ field ++ "\"."
  | .permission required _ =>
      "You need the following permissions: " ++ String.intercalate ", " required
  | .cooldown t _ =>
      "Please wait " ++ toString t ++ " seconds before using this command again."
  | .configuration _ => "The bot is misconfigured. Please contact an administrator."
  | .externalService s _ true => s ++ " is temporarily unavailable. Please try again later."
  | .externalService s _ false => "An error occurred while communicating with " ++ s ++ "."

/-- A value of TypeScript type `Error | BotError`: either of the typed
taxonomy or a foreign JavaScript error. -/
inductive AnyError where
  | bot (e : BotError)
  | js (e : JSError)
deriving DecidableEq

namespace ErrorHandler

/-- `ErrorHandler.normalizeError`: a taxonomy value is rebuilt through the
base constructor `new BotError(...)` with the extra context merged in (so
the result is of the base class); a foreign error is wrapped as a generic
unknown error with the original as cause. -/
def normalizeError (error : AnyError) (context : ErrorContext) : BotError :=
  match error with
  | .bot e => BotError.make e.message e.code (mergeContext e.context context)
      e.originalError e.severity
  | .js e => BotError.make e.message .UNKNOWN_ERROR context (some e) .MEDIUM

/-- `ErrorHandler.isOperationalError`: reads `isOperational` off a taxonomy
value; any foreign failure type is non-operational. -/
def isOperationalError (error : AnyError) : Bool :=
  match error with
  | .bot e => e.isOperational
  | .js _ => false

end ErrorHandler

/-- A registered error-handler callback (`ErrorHandlerFn`).  The callback
body is opaque side-effecting code; it is modelled by an identifier (to
record the order in which callbacks are invoked) and by whether invoking it
on a given error completes (`run e = true`) or throws (`run e = false`). -/
structure Callback where
  id : Nat
  run : BotError → Bool

/-- The process-wide static state of the `ErrorHandler` class: the
registered callbacks, the per-code occurrence counts (a `Map` read with
`?? 0`, modelled as a total function), and the bounded recent-error list.
Field order: handlers, errorCounts, lastErrors. -/
structure ErrorHandlerState where
  handlers : List Callback
  errorCounts : ErrorCode → Nat
  lastErrors : List BotError

/-- The result record returned by `ErrorHandler.handle`.  Field order:
handled, error, reported. -/
structure ErrorHandleResult where
  handled : Bool
  error : BotError
  reported : Bool

namespace ErrorHandler

/-- `MAX_STORED_ERRORS`. -/
def MAX_STORED_ERRORS : Nat := 100

/-- The initial static state: no callbacks registered (or a given list, as
`registerHandler` builds it), zero counts, empty buffer. -/
def initState (handlers : List Callback) : ErrorHandlerState :=
  ⟨handlers, fun _ => 0, []⟩

/-- `ErrorHandler.registerHandler`: pushes the callback at the end of the
handler list. -/
def registerHandler (st : ErrorHandlerState) (handler : Callback) : ErrorHandlerState :=
  ⟨st.handlers ++ [handler], st.errorCounts, st.lastErrors⟩

/-- `ErrorHandler.storeError` (private): push the error, then if the length
exceeds `MAX_STORED_ERRORS` shift the first (oldest) element off. -/
def storeError (lastErrors : List BotError) (e : BotError) : List BotError :=
  let pushed := lastErrors ++ [e]
  if MAX_STORED_ERRORS < pushed.length then pushed.tail else pushed

/-- The callback loop of `ErrorHandler.handle`: each handler is awaited in
a `try` whose `catch` only logs, so the loop always reaches every handler;
`reported` is set to true after each handler that completes.  Returns the
ids of the invoked handlers in invocation order, and the final `reported`
flag. -/
def runHandlers (handlers : List Callback) (e : BotError) : List Nat × Bool :=
  handlers.foldl (fun acc cb => ⟨acc.1 ++ [cb.id], acc.2 || cb.run e⟩) ⟨[], false⟩

/-- `ErrorHandler.handle`: normalize, bump the per-code count, store into
the bounded buffer, log (logging has no modelled effect), run the callbacks,
and return `\x7b handled: true, error, reported \x7d`.  The invocation trace of
`runHandlers` is returned alongside for the order-of-invocation claims. -/
def handle (st : ErrorHandlerState) (error : AnyError) (context : ErrorContext) :
    ErrorHandlerState × ErrorHandleResult × List Nat :=
  let botError := normalizeError error context
  let counts := fun c => if c = botError.code then st.errorCounts c + 1 else st.errorCounts c
  let stored := storeError st.lastErrors botError
  let rh := runHandlers st.handlers botError
  ⟨⟨st.handlers, counts, stored⟩, ⟨true, botError, rh.2⟩, rh.1⟩

end ErrorHandler

/-- The pieces of a `ChatInputCommandInteraction` the error path reads:
routing identifiers and the replied/deferred acknowledgement flags.  Field
order: userId, guildId, channelId, commandName, replied, deferred. -/
structure Interaction where
  userId : String
  guildId : Option String
  channelId : String
  commandName : String
  replied : Bool
  deferred : Bool

/-- The reply options object sent to the user (content, ephemeral). -/
structure ReplyOptions where
  content : String
  ephemeral : Bool
deriving DecidableEq

/-- How the error reply is delivered: as the initial reply
(`interaction.reply`) or as a follow-up (`interaction.followUp`). -/
inductive SentReply where
  | initial (opts : ReplyOptions)
  | followUp (opts : ReplyOptions)
deriving DecidableEq

namespace ErrorHandler

/-- The context `handleInteractionError` attaches: userId, guildId (omitted
when the interaction has none: `?? undefined`), channelId, commandName. -/
def interactionContext (i : Interaction) : ErrorContext :=
  [("userId", i.userId)]
    ++ (match i.guildId with | some g => [("guildId", g)] | none => [])
    ++ [("channelId", i.channelId), ("commandName", i.commandName)]

/-- `ErrorHandler.handleInteractionError`: normalize with the interaction
context, run `handle`, then reply to the requester with
`botError.getUserMessage()` marked ephemeral — as a follow-up when the
interaction was already replied or deferred, as the initial reply otherwise.
A failure of the outbound reply itself is only logged (not modelled). -/
def handleInteractionError (st : ErrorHandlerState) (error : AnyError)
    (i : Interaction) : ErrorHandlerState × SentReply :=
  let botError := normalizeError error (interactionContext i)
  let handled := handle st (.bot botError) []
  let userMessage := botError.getUserMessage
  let replyOptions : ReplyOptions := ⟨userMessage, true⟩
  if i.replied || i.deferred then ⟨handled.1, .followUp replyOptions⟩
  else ⟨handled.1, .initial replyOptions⟩

end ErrorHandler

/-- The process-wide cooldown storage of `defineCommand.ts`:
`Map<commandName, Map<userId, expiresAt>>`, both levels read with a default
(`?? new Map()`, `?? 0`), modelled as a total function to expiry
milliseconds with default 0. -/
abbrev Cooldowns := String → String → Nat

/-- `checkCooldown` of `defineCommand.ts`: a cooldown of at most zero
seconds always passes; before the stored expiry the remaining milliseconds
are divided by 1000 rounding up (`Math.ceil`) and returned; at or after
expiry the entry for (command, user) is overwritten with
`now + cooldownSeconds * 1000` and the check passes.  Returns the remaining
whole seconds (`some r` = on cooldown) and the updated storage. -/
def checkCooldown (cds : Cooldowns) (commandName userId : String)
    (cooldownSeconds : Int) (now : Nat) : Option Nat × Cooldowns :=
  if cooldownSeconds ≤ 0 then ⟨none, cds⟩
  else
    let expiresAt := cds commandName userId
    if now < expiresAt then ⟨some ((expiresAt - now + 999) / 1000), cds⟩
    else
      ⟨none, fun c u =>
        if c = commandName ∧ u = userId then now + (cooldownSeconds * 1000).toNat
        else cds c u⟩

/-- `checkPermissions` of `defineCommand.ts`: an empty required list always
passes; with no member-permission object (`!interaction.memberPermissions`)
the check fails; otherwise every required permission bit must be held.
Permission bits (`bigint` flags) are modelled as naturals. -/
def checkPermissions (memberPermissions : Option (List Nat))
    (permissions : List Nat) : Bool :=
  if permissions.length = 0 then true
  else
    match memberPermissions with
    | none => false
    | some held => permissions.all (fun p => held.contains p)


/-- A value extracted from a request option
(`interaction.options.get(name)?.value`): text, numeric, or boolean.
`undefined` and `null` are both modelled by the extraction returning
`none`. -/
inductive OptionValue where
  | vstr (s : String)
  | vint (n : Int)
  | vbool (b : Bool)
deriving DecidableEq

/-- The declared validation constraints of a parameter schema
(`param.validation`): optional length bounds, an optional pattern (a
`RegExp`, modelled as a predicate on strings), optional numeric bounds. -/
structure ValidationOptions where
  minLength : Option Nat
  maxLength : Option Nat
  pattern : Option (String → Bool)
  min : Option Int
  max : Option Int

/-- A `ValidationOptions` with nothing set (`param.validation` absent:
the validators default it to an empty object). -/
def ValidationOptions.empty : ValidationOptions := ⟨none, none, none, none, none⟩

/-- `ParameterValidators.string` (`commandTemplate.ts`): the value must be
text; then each constraint is applied only when its option is truthy in
JavaScript — a `minLength` or `maxLength` of 0 is falsy and therefore
skipped (`if (opts.minLength && value.length < opts.minLength)`). -/
def ParameterValidators.string (v : OptionValue) (opts : ValidationOptions) : Bool :=
  match v with
  | .vstr s =>
      (match opts.minLength with
        | some m => decide (m = 0) || decide (m ≤ s.length)
        | none => true)
      && (match opts.maxLength with
        | some m => decide (m = 0) || decide (s.length ≤ m)
        | none => true)
      && (match opts.pattern with
        | some p => p s
        | none => true)
  | _ => false

/-- `ParameterValidators.integer`: `Number.isInteger(value)` plus the
numeric bounds (`!== undefined` guards, so a 0 bound is applied). -/
def ParameterValidators.integer (v : OptionValue) (opts : ValidationOptions) : Bool :=
  match v with
  | .vint n =>
      (match opts.min with | some m => decide (m ≤ n) | none => true)
      && (match opts.max with | some m => decide (n ≤ m) | none => true)
  | _ => false

/-- `ParameterValidators.number`: a non-NaN number plus the numeric bounds.
Request option values are never NaN here, so numbers are the `vint`
constructor. -/
def ParameterValidators.number (v : OptionValue) (opts : ValidationOptions) : Bool :=
  match v with
  | .vint n =>
      (match opts.min with | some m => decide (m ≤ n) | none => true)
      && (match opts.max with | some m => decide (n ≤ m) | none => true)
  | _ => false

/-- `ParameterValidators.boolean`: `typeof value === 'boolean'`. -/
def ParameterValidators.boolean (v : OptionValue) (_ : ValidationOptions) : Bool :=
  match v with
  | .vbool _ => true
  | _ => false

/-- The `user`, `channel`, `role` and `mentionable` validators require a
non-null object with an `id` field; `attachment` requires one with a `url`
field.  Extracted option values are never objects, so these reject every
value that reaches them. -/
def ParameterValidators.entity (_ : OptionValue) (_ : ValidationOptions) : Bool :=
  false

/-- The `ParameterValidators` record: a lookup from the declared type tag to
its validator; a tag outside the fixed enumeration has none
(`Record<string, ParameterValidator>` indexing returns `undefined`). -/
def ParameterValidators.lookup (tag : String) :
    Option (OptionValue → ValidationOptions → Bool) :=
  if tag = "string" then some ParameterValidators.string
  else if tag = "integer" then some ParameterValidators.integer
  else if tag = "number" then some ParameterValidators.number
  else if tag = "boolean" then some ParameterValidators.boolean
  else if tag = "user" then some ParameterValidators.entity
  else if tag = "channel" then some ParameterValidators.entity
  else if tag = "role" then some ParameterValidators.entity
  else if tag = "mentionable" then some ParameterValidators.entity
  else if tag = "attachment" then some ParameterValidators.entity
  else none

/-- A declared parameter schema (`CommandParameter`): name, type tag,
required flag, validation constraints.  Field order: name, ptype, required,
validation. -/
structure CommandParameter where
  name : String
  ptype : String
  required : Bool
  validation : ValidationOptions

/-- The result of `validateParameters`: either a failure message or the
extracted parameter map (an association list keyed by declared name, in
schema order). -/
inductive ValidationResult where
  | invalid (error : String)
  | valid (params : List (String × OptionValue))

/-- The loop of `CommandTemplate.validateParameters`, with the accumulated
`params` map made explicit.  Per parameter: a required parameter whose
extracted value is absent (undefined or null) fails with a "required"
message; a present value is checked by the validator looked up for its type
tag when one exists — failing it stops with an "invalid" message — and is
then stored under the declared name; when no validator exists the value is
stored unchecked. -/
def validateParametersAux (options : String → Option OptionValue) :
    List CommandParameter → List (String × OptionValue) → ValidationResult
  | [], params => .valid params
  | p :: rest, params =>
    match options p.name with
    | none =>
      if p.required then .invalid ("Parameter '" ++ p.name ++ "' is required")
      else validateParametersAux options rest params
    | some v =>
      match ParameterValidators.lookup p.ptype with
      | some validator =>
        if validator v p.validation then
          validateParametersAux options rest (params ++ [(p.name, v)])
        else .invalid ("Parameter '" ++ p.name ++ "' is invalid")
      | none => validateParametersAux options rest (params ++ [(p.name, v)])

namespace CommandTemplate

/-- `CommandTemplate.validateParameters`: run the loop over the declared
schema list starting from an empty map. -/
def validateParameters (parameters : List CommandParameter)
    (options : String → Option OptionValue) : ValidationResult :=
  validateParametersAux options parameters []

/-- The member-permission information available on
`interaction.member.permissions` in the template style: on an API member
object it is a raw serialized string, on a resolved guild member it is a
readable permission set. -/
inductive MemberPermissions where
  | strPerms (s : String)
  | resolved (held : List String)

/-- `CommandTemplate.validatePermissions`: an empty required list always
passes; a missing member (or a member object without a permissions field)
fails; a string-typed permissions field fails; otherwise every required
permission must be held. -/
def validatePermissions (member : Option MemberPermissions)
    (permissions : List String) : Bool :=
  if permissions.length = 0 then true
  else
    match member with
    | none => false
    | some (.strPerms _) => false
    | some (.resolved held) => permissions.all (fun p => held.contains p)

/-- The template cooldown storage: `Map<string, number>` from the combined
key to the last-used timestamp, read with `?? 0` — modelled as a total
function with default 0. -/
abbrev TemplateCooldowns := String → Nat

/-- `CommandTemplate.checkCooldown`: a cooldown of exactly zero always
passes; otherwise, under the key `name ++ "_" ++ userId`, an invocation
within `cooldown * 1000` ms of the stored last use fails, and otherwise the
key is overwritten with the current time and the check passes.  Returns
whether the invocation may proceed, with the updated storage. -/
def checkCooldown (cds : TemplateCooldowns) (name userId : String)
    (cooldown : Nat) (now : Nat) : Bool × TemplateCooldowns :=
  if cooldown = 0 then ⟨true, cds⟩
  else
    let cooldownKey := name ++ "_" ++ userId
    let lastUsed := cds cooldownKey
    if now - lastUsed < cooldown * 1000 then ⟨false, cds⟩
    else ⟨true, fun k => if k = cooldownKey then now else cds k⟩

end CommandTemplate

/-! Helper lemmas shared by the claim theorems. -/

/-- The callback loop unrolled: starting from any accumulator, the fold
appends every callback id in list order and ors in each completion flag. -/
theorem runHandlers_foldl (e : BotError) :
    ∀ (hs : List Callback) (acc : List Nat × Bool),
      hs.foldl (fun acc cb => (⟨acc.1 ++ [cb.id], acc.2 || cb.run e⟩ : List Nat × Bool)) acc
        = ⟨acc.1 ++ hs.map (fun cb => cb.id), acc.2 || hs.any (fun cb => cb.run e)⟩
  | [], acc => by simp
  | cb :: hs, acc => by
    simp only [List.foldl_cons, runHandlers_foldl e hs, List.map_cons, List.any_cons]
    simp [Bool.or_assoc]

/-- `runHandlers` invokes every callback in list order and reports whether
any completed. -/
theorem runHandlers_eq (hs : List Callback) (e : BotError) :
    ErrorHandler.runHandlers hs e
      = ⟨hs.map (fun cb => cb.id), hs.any (fun cb => cb.run e)⟩ := by
  unfold ErrorHandler.runHandlers
  rw [runHandlers_foldl]
  simp

/-- Folding `registerHandler` appends the callbacks to the handler list. -/
theorem registerHandler_foldl :
    ∀ (cbs : List Callback) (st : ErrorHandlerState),
      (cbs.foldl ErrorHandler.registerHandler st).handlers = st.handlers ++ cbs
  | [], st => by simp
  | cb :: cbs, st => by
    simp only [List.foldl_cons, registerHandler_foldl cbs]
    simp [ErrorHandler.registerHandler]

/-- `storeError` keeps the buffer within the 100-element bound. -/
theorem storeError_length_le (buf : List BotError) (e : BotError)
    (h : buf.length ≤ 100) : (ErrorHandler.storeError buf e).length ≤ 100 := by
  unfold ErrorHandler.storeError ErrorHandler.MAX_STORED_ERRORS
  simp only [List.length_append, List.length_cons]
  split
  · simp
    omega
  · simp at *
    omega

/-- C4: for the context-style cooldown check, a cooldown of zero seconds
always passes leaving the storage untouched; with a positive cooldown, an
invocation before the stored expiry for (command, user) is rejected
reporting the remaining time rounded up to the next whole second, and an
invocation at or after expiry passes and sets that expiry to
now + cooldown seconds; in particular, with cooldown 3 the same user
invoking at t = 0 s, 1 s and 4 s respectively succeeds, fails with
remaining = 2, and succeeds. -/
theorem checkCooldown_spec :
    (∀ (cds : Cooldowns) (cmd uid : String) (now : Nat),
      checkCooldown cds cmd uid 0 now = ⟨none, cds⟩)
    ∧ (∀ (cds : Cooldowns) (cmd uid : String) (C : Int) (now : Nat),
        0 < C → now < cds cmd uid →
        checkCooldown cds cmd uid C now
          = ⟨some ((cds cmd uid - now + 999) / 1000), cds⟩)
    ∧ (∀ (cds : Cooldowns) (cmd uid : String) (C : Int) (now : Nat),
        0 < C → cds cmd uid ≤ now →
        (checkCooldown cds cmd uid C now).1 = none
        ∧ (checkCooldown cds cmd uid C now).2 cmd uid = now + (C * 1000).toNat)
    ∧ ((checkCooldown (fun _ _ => 0) "ping" "X" 3 0).1 = none
        ∧ (checkCooldown
            (checkCooldown (fun _ _ => 0) "ping" "X" 3 0).2 "ping" "X" 3 1000).1 = some 2
        ∧ (checkCooldown
            (checkCooldown
              (checkCooldown (fun _ _ => 0) "ping" "X" 3 0).2 "ping" "X" 3 1000).2
            "ping" "X" 3 4000).1 = none) := by
  refine ⟨?_, ?_, ?_, ?_⟩
  · intro cds cmd uid now
    simp [checkCooldown]
  · intro cds cmd uid C now hC hlt
    rw [checkCooldown, if_neg (by omega), if_pos hlt]
  · intro cds cmd uid C now hC hle
    rw [checkCooldown, if_neg (by omega), if_neg (not_lt.mpr hle)]
    exact ⟨rfl, by simp⟩
  · exact ⟨by decide, by decide, by decide⟩

/-- Witness for C4: a concrete rejected invocation, 1 s into a 3 s cooldown
whose stored expiry is 3000 ms, reports 2 s remaining and leaves the
storage unchanged. -/
theorem checkCooldown_spec_witness :
    (0:Int) < 3
    ∧ 1000 < (fun c u => if c = "ping" ∧ u = "X" then 3000 else 0 : Cooldowns) "ping" "X"
    ∧ checkCooldown (fun c u => if c = "ping" ∧ u = "X" then 3000 else 0) "ping" "X" 3 1000
        = ⟨some 2, fun c u => if c = "ping" ∧ u = "X" then 3000 else 0⟩ :=
  ⟨by decide, by decide,
    checkCooldown_spec.2.1 (fun c u => if c = "ping" ∧ u = "X" then 3000 else 0)
      "ping" "X" 3 1000 (by decide) (by decide)⟩

/-- C5: in both wrapper styles, an empty required-permission list always
passes the permission check, and against an available held-permission set a
non-empty list passes exactly when every required permission is held. -/
theorem permission_checks_require_all :
    (∀ mp : Option (List Nat), checkPermissions mp [] = true)
    ∧ (∀ (held perms : List Nat),
        checkPermissions (some held) perms = true ↔ ∀ p ∈ perms, p ∈ held)
    ∧ (∀ member, CommandTemplate.validatePermissions member [] = true)
    ∧ (∀ (held perms : List String),
        CommandTemplate.validatePermissions (some (.resolved held)) perms = true
          ↔ ∀ p ∈ perms, p ∈ held) := by
  refine ⟨?_, ?_, ?_, ?_⟩
  · intro mp
    simp [checkPermissions]
  · intro held perms
    rcases perms with _ | ⟨p, ps⟩
    · simp [checkPermissions]
    · rw [checkPermissions, if_neg (by simp)]
      simp [List.all_eq_true]
  · intro member
    simp [CommandTemplate.validatePermissions]
  · intro held perms
    rcases perms with _ | ⟨p, ps⟩
    · simp [CommandTemplate.validatePermissions]
    · rw [CommandTemplate.validatePermissions, if_neg (by simp)]
      simp [List.all_eq_true]

/-- Witness for C5: a requester holding a superset of the single required
permission bit passes the context-style check. -/
theorem permission_checks_require_all_witness :
    checkPermissions (some [8, 32]) [32] = true ↔ ∀ p ∈ [32], p ∈ [8, 32] :=
  permission_checks_require_all.2.1 [8, 32] [32]

/-- C10: in both wrapper styles a non-empty required-permission list is
rejected when the held-permission information is unavailable — a missing
member-permission object in the context style, and a missing member or a
raw string-typed permissions field in the template style. -/
theorem permission_check_absent_member_rejects :
    (∀ perms : List Nat, perms ≠ [] → checkPermissions none perms = false)
    ∧ (∀ perms : List String, perms ≠ [] →
        CommandTemplate.validatePermissions none perms = false)
    ∧ (∀ (perms : List String) (s : String), perms ≠ [] →
        CommandTemplate.validatePermissions (some (.strPerms s)) perms = false) := by
  refine ⟨?_, ?_, ?_⟩
  · intro perms h
    rw [checkPermissions, if_neg (by simpa using h)]
  · intro perms h
    rw [CommandTemplate.validatePermissions, if_neg (by simpa using h)]
  · intro perms s h
    rw [CommandTemplate.validatePermissions, if_neg (by simpa using h)]

/-- Witness for C10: a command requiring ManageGuild invoked with no member
permissions available is rejected in both styles. -/
theorem permission_check_absent_member_rejects_witness :
    checkPermissions none [32] = false
    ∧ CommandTemplate.validatePermissions none ["ManageGuild"] = false :=
  ⟨permission_check_absent_member_rejects.1 [32] (by decide),
    permission_check_absent_member_rejects.2.1 ["ManageGuild"] (by decide)⟩

/-- C9: a cooldown check that rejects the invocation leaves the stored
cooldown state unchanged (so repeated rejected attempts never extend or
reset the cooldown), only an allowed invocation overwrites the entry, and
no check modifies the entry of a different key — in the context style the
(command, user) pair, in the template style the combined string key. -/
theorem cooldown_checks_frame :
    (∀ (cds : Cooldowns) (cmd uid : String) (C : Int) (now r : Nat),
      (checkCooldown cds cmd uid C now).1 = some r →
      (checkCooldown cds cmd uid C now).2 = cds)
    ∧ (∀ (cds : Cooldowns) (cmd uid : String) (C : Int) (now : Nat) (c u : String),
        ¬(c = cmd ∧ u = uid) →
        (checkCooldown cds cmd uid C now).2 c u = cds c u)
    ∧ (∀ (tc : CommandTemplate.TemplateCooldowns) (name uid : String) (cd now : Nat),
        (CommandTemplate.checkCooldown tc name uid cd now).1 = false →
        (CommandTemplate.checkCooldown tc name uid cd now).2 = tc)
    ∧ (∀ (tc : CommandTemplate.TemplateCooldowns) (name uid : String) (cd now : Nat)
        (k : String), k ≠ name ++ "_" ++ uid →
        (CommandTemplate.checkCooldown tc name uid cd now).2 k = tc k) := by
  refine ⟨?_, ?_, ?_, ?_⟩
  · intro cds cmd uid C now r h
    by_cases hC : C ≤ 0
    · simp [checkCooldown, hC]
    · by_cases hlt : now < cds cmd uid
      · simp [checkCooldown, hC, hlt]
      · simp [checkCooldown, hC, hlt] at h
  · intro cds cmd uid C now c u hne
    by_cases hC : C ≤ 0
    · simp [checkCooldown, hC]
    · by_cases hlt : now < cds cmd uid
      · simp [checkCooldown, hC, hlt]
      · simp [checkCooldown, hC, hlt, hne]
  · intro tc name uid cd now h
    by_cases h0 : cd = 0
    · simp [CommandTemplate.checkCooldown, h0]
    · by_cases hlt : now - tc (name ++ "_" ++ uid) < cd * 1000
      · simp [CommandTemplate.checkCooldown, h0, hlt]
      · simp [CommandTemplate.checkCooldown, h0, hlt] at h
  · intro tc name uid cd now k hne
    by_cases h0 : cd = 0
    · simp [CommandTemplate.checkCooldown, h0]
    · by_cases hlt : now - tc (name ++ "_" ++ uid) < cd * 1000
      · simp [CommandTemplate.checkCooldown, h0, hlt]
      · simp [CommandTemplate.checkCooldown, h0, hlt, hne]

/-- Witness for C9: a rejected invocation (1 s into a 3 s cooldown) leaves
the whole storage unchanged, and an allowed invocation leaves the entry of
another user unchanged. -/
theorem cooldown_checks_frame_witness :
    (checkCooldown (fun c u => if c = "ping" ∧ u = "X" then 9000 else 0)
        "ping" "X" 3 1000).2 = (fun c u => if c = "ping" ∧ u = "X" then 9000 else 0)
    ∧ (checkCooldown (fun _ _ => 0) "ping" "X" 3 1000).2 "ping" "Y" = 0 :=
  ⟨cooldown_checks_frame.1 (fun c u => if c = "ping" ∧ u = "X" then 9000 else 0)
      "ping" "X" 3 1000 8 (by decide),
    cooldown_checks_frame.2.1 (fun _ _ => 0) "ping" "X" 3 1000 "ping" "Y" (by decide)⟩

/-- C6: `handle` invokes the registered callbacks in registration order
(`registerHandler` appends, the loop follows the list), a throwing callback
prevents neither the remaining callbacks nor the handled result, and the
result reports whether at least one callback ran without throwing. -/
theorem handle_runs_callbacks_in_order (st : ErrorHandlerState) (error : AnyError)
    (ctx : ErrorContext) :
    (ErrorHandler.handle st error ctx).2.1.handled = true
    ∧ (ErrorHandler.handle st error ctx).2.2 = st.handlers.map (fun cb => cb.id)
    ∧ ((ErrorHandler.handle st error ctx).2.1.reported = true
        ↔ ∃ cb ∈ st.handlers, cb.run (ErrorHandler.normalizeError error ctx) = true)
    ∧ (∀ cbs : List Callback,
        (cbs.foldl ErrorHandler.registerHandler (ErrorHandler.initState [])).handlers = cbs) := by
  refine ⟨rfl, ?_, ?_, ?_⟩
  · show (ErrorHandler.runHandlers st.handlers _).1 = _
    rw [runHandlers_eq]
  · show (ErrorHandler.runHandlers st.handlers _).2 = true ↔ _
    rw [runHandlers_eq]
    simp [List.any_eq_true]
  · intro cbs
    rw [registerHandler_foldl]
    simp [ErrorHandler.initState]

/-- Witness for C6: with a first callback that throws and a second that
completes, both are invoked in order and the result still reports success. -/
theorem handle_runs_callbacks_in_order_witness :
    (ErrorHandler.handle ⟨[⟨1, fun _ => false⟩, ⟨2, fun _ => true⟩], fun _ => 0, []⟩
        (.js ⟨"TypeError", "boom"⟩) []).2.2
      = (⟨[⟨1, fun _ => false⟩, ⟨2, fun _ => true⟩], fun _ => 0, []⟩
          : ErrorHandlerState).handlers.map (fun cb => cb.id) :=
  (handle_runs_callbacks_in_order
    ⟨[⟨1, fun _ => false⟩, ⟨2, fun _ => true⟩], fun _ => 0, []⟩
    (.js ⟨"TypeError", "boom"⟩) []).2.1

/-- C8: starting from the initial state, any sequence of `handle` calls
leaves at most 100 errors in the recent-error buffer, and a `handle` whose
buffer already holds 100 errors evicts exactly the oldest (first) stored
error while appending the new one at the end. -/
theorem errors_buffer_bounded_fifo :
    (∀ (handlers : List Callback) (errs : List (AnyError × ErrorContext)),
      ((errs.foldl (fun st ec => (ErrorHandler.handle st ec.1 ec.2).1)
          (ErrorHandler.initState handlers)).lastErrors).length ≤ 100)
    ∧ (∀ (st : ErrorHandlerState) (error : AnyError) (ctx : ErrorContext),
        st.lastErrors.length = 100 →
        (ErrorHandler.handle st error ctx).1.lastErrors
          = st.lastErrors.tail ++ [ErrorHandler.normalizeError error ctx]) := by
  constructor
  · intro handlers errs
    have key : ∀ (errs : List (AnyError × ErrorContext)) (st : ErrorHandlerState),
        st.lastErrors.length ≤ 100 →
        ((errs.foldl (fun st ec => (ErrorHandler.handle st ec.1 ec.2).1) st).lastErrors).length
          ≤ 100 := by
      intro errs
      induction errs with
      | nil => intro st h; exact h
      | cons ec rest ih =>
        intro st h
        exact ih _ (storeError_length_le st.lastErrors _ h)
    exact key errs (ErrorHandler.initState handlers) (by simp [ErrorHandler.initState])
  · intro st error ctx h
    show ErrorHandler.storeError st.lastErrors _ = _
    rcases hbuf : st.lastErrors with _ | ⟨e0, rest⟩
    · rw [hbuf] at h
      simp at h
    · rw [hbuf] at h
      unfold ErrorHandler.storeError ErrorHandler.MAX_STORED_ERRORS
      rw [if_pos (by simp_all)]
      simp

/-- Witness for C8: a handle on a buffer already holding 100 errors drops
the single oldest error and appends the newly normalized one. -/
theorem errors_buffer_bounded_fifo_witness :
    (ErrorHandler.handle
        ⟨[], fun _ => 0, List.replicate 100 (BotError.make "old" .UNKNOWN_ERROR [] none .MEDIUM)⟩
        (.js ⟨"TypeError", "boom"⟩) []).1.lastErrors
      = (List.replicate 100 (BotError.make "old" .UNKNOWN_ERROR [] none .MEDIUM)).tail
          ++ [ErrorHandler.normalizeError (.js ⟨"TypeError", "boom"⟩) []] :=
  errors_buffer_bounded_fifo.2
    ⟨[], fun _ => 0, List.replicate 100 (BotError.make "old" .UNKNOWN_ERROR [] none .MEDIUM)⟩
    (.js ⟨"TypeError", "boom"⟩) [] (by simp)

/-- Counterexample for C2: normalizing a raw type error does produce the
unknown-error code, medium severity and the wrapped cause, but the
operational flag of the produced value is true, not false — the base
constructor marks every constructed taxonomy value operational. -/
theorem normalizeError_typeError_operational_cex :
    (ErrorHandler.normalizeError
        (.js ⟨"TypeError", "cannot read property of undefined"⟩) []).isOperational = true
    ∧ (ErrorHandler.normalizeError
        (.js ⟨"TypeError", "cannot read property of undefined"⟩) []).code = .UNKNOWN_ERROR :=
  ⟨rfl, rfl⟩

/-- C2 (amended): normalization of a failure value foreign to the typed
taxonomy yields a taxonomy value with the generic unknown-error code,
severity medium, the original error and its message as the wrapped cause —
and with operational flag true (the constructor marks every taxonomy value
operational); the is-operational test reports false only on the raw foreign
value itself, before normalization. -/
theorem normalizeError_foreign_spec (e : JSError) (ctx : ErrorContext) :
    (ErrorHandler.normalizeError (.js e) ctx).code = .UNKNOWN_ERROR
    ∧ (ErrorHandler.normalizeError (.js e) ctx).severity = .MEDIUM
    ∧ (ErrorHandler.normalizeError (.js e) ctx).isOperational = true
    ∧ (ErrorHandler.normalizeError (.js e) ctx).originalError = some e
    ∧ (ErrorHandler.normalizeError (.js e) ctx).message = e.message
    ∧ ErrorHandler.isOperationalError (.js e) = false :=
  ⟨rfl, rfl, rfl, rfl, rfl, rfl⟩

/-- Counterexample for C3: the type tag "unknownType" has no validator, yet
a present value under it is not rejected — parameter validation returns the
valid result with the value passed through to the handler. -/
theorem validateParameters_unknown_tag_cex :
    ParameterValidators.lookup "unknownType" = none
    ∧ CommandTemplate.validateParameters
        [⟨"x", "unknownType", true, ValidationOptions.empty⟩]
        (fun n => if n = "x" then some (.vstr "hi") else none)
      = .valid [("x", .vstr "hi")] :=
  ⟨rfl, rfl⟩

/-- C3 (amended): a present value of a parameter whose declared type tag
has no validator is accepted without any check and passed through, keyed by
the declared name, to the handler — unknown type tags fail open, not
closed. -/
theorem validateParameters_unknown_tag_fails_open
    (name tag : String) (v : OptionValue) (req : Bool) (opts : ValidationOptions)
    (optf : String → Option OptionValue)
    (hlookup : ParameterValidators.lookup tag = none)
    (hpresent : optf name = some v) :
    CommandTemplate.validateParameters [⟨name, tag, req, opts⟩] optf
      = .valid [(name, v)] := by
  unfold CommandTemplate.validateParameters validateParametersAux
  rw [hpresent]
  simp only [hlookup]
  rfl

/-- Witness for C3 (amended): a required parameter of unknown tag with a
present text value reaches the handler unchecked. -/
theorem validateParameters_unknown_tag_fails_open_witness :
    ParameterValidators.lookup "unknownType" = none
    ∧ (fun n => if n = "y" then some (OptionValue.vint 7) else none) "y" = some (.vint 7)
    ∧ CommandTemplate.validateParameters
        [⟨"y", "unknownType", false, ValidationOptions.empty⟩]
        (fun n => if n = "y" then some (.vint 7) else none)
      = .valid [("y", .vint 7)] :=
  ⟨rfl, rfl,
    validateParameters_unknown_tag_fails_open "y" "unknownType" (.vint 7) false
      ValidationOptions.empty (fun n => if n = "y" then some (.vint 7) else none) rfl rfl⟩

/-- C1: a permission error of the typed taxonomy passed to the request-level
error handling is first rebuilt through the base constructor by
`normalizeError`, so the reply sent to the requester carries the base
class's generic sentence — not the permission error's own user-facing
message naming the missing ManageGuild permission, which the error's
declared user-message method does produce. -/
theorem handleInteractionError_permission_reply_generic :
    (ErrorHandler.handleInteractionError (ErrorHandler.initState [])
        (.bot (PermissionError.make ["ManageGuild"] (some ["SendMessages"]) []))
        ⟨"user1", some "guild1", "chan1", "mod", false, false⟩).2
      = .initial ⟨"An error occurred while processing your request.", true⟩
    ∧ (PermissionError.make ["ManageGuild"] (some ["SendMessages"]) []).getUserMessage
      = "You need the following permissions: ManageGuild"
    ∧ "An error occurred while processing your request."
      ≠ "You need the following permissions: ManageGuild" :=
  ⟨rfl, rfl, by decide⟩

/-- When the validation loop succeeds, the produced parameter map is the
running accumulator followed by, in schema order, each declared name paired
with its extracted value (absent optional parameters contribute nothing). -/
theorem validateParametersAux_valid_params (optf : String → Option OptionValue) :
    ∀ (ps : List CommandParameter) (acc m : List (String × OptionValue)),
      validateParametersAux optf ps acc = .valid m →
      m = acc ++ ps.filterMap (fun p => (optf p.name).map (fun v => (p.name, v))) := by
  intro ps
  induction ps with
  | nil =>
    intro acc m h
    cases h
    simp
  | cons p rest ih =>
    intro acc m h
    simp only [validateParametersAux] at h
    rcases hop : optf p.name with _ | v
    · simp only [hop] at h
      rcases hreq : p.required
      · simp only [hreq, Bool.false_eq_true, if_false] at h
        simpa [List.filterMap_cons, hop] using ih acc m h
      · simp [hreq] at h
    · simp only [hop] at h
      rcases hlk : ParameterValidators.lookup p.ptype with _ | f
      · simp only [hlk] at h
        have := ih _ m h
        simp [List.filterMap_cons, hop, this]
      · simp only [hlk] at h
        rcases hv : f v p.validation
        · simp [hv] at h
        · simp only [hv, if_true] at h
          have := ih _ m h
          simp [List.filterMap_cons, hop, this]

/-- When the validation loop succeeds, every required parameter had a
present (non-null) extracted value. -/
theorem validateParametersAux_valid_required (optf : String → Option OptionValue) :
    ∀ (ps : List CommandParameter) (acc m : List (String × OptionValue)),
      validateParametersAux optf ps acc = .valid m →
      ∀ p ∈ ps, p.required = true → optf p.name ≠ none := by
  intro ps
  induction ps with
  | nil =>
    intro acc m _ p hp
    simp at hp
  | cons q rest ih =>
    intro acc m h p hp hreq
    simp only [validateParametersAux] at h
    rcases hop : optf q.name with _ | v
    · simp only [hop] at h
      rcases hq : q.required
      · simp only [hq, Bool.false_eq_true, if_false] at h
        rcases List.mem_cons.mp hp with rfl | hmem
        · rw [hreq] at hq
          cases hq
        · exact ih acc m h p hmem hreq
      · simp [hq] at h
    · rcases List.mem_cons.mp hp with rfl | hmem
      · rw [hop]
        simp
      · simp only [hop] at h
        rcases hlk : ParameterValidators.lookup q.ptype with _ | f
        · simp only [hlk] at h
          exact ih _ m h p hmem hreq
        · simp only [hlk] at h
          rcases hv : f v q.validation
          · simp [hv] at h
          · simp only [hv, if_true] at h
            exact ih _ m h p hmem hreq

/-- When the validation loop succeeds, every parameter with a present value
and an existing validator for its type tag passed that validator under its
declared constraints. -/
theorem validateParametersAux_valid_checked (optf : String → Option OptionValue) :
    ∀ (ps : List CommandParameter) (acc m : List (String × OptionValue)),
      validateParametersAux optf ps acc = .valid m →
      ∀ p ∈ ps, ∀ v, optf p.name = some v →
      ∀ f, ParameterValidators.lookup p.ptype = some f → f v p.validation = true := by
  intro ps
  induction ps with
  | nil =>
    intro acc m _ p hp
    simp at hp
  | cons q rest ih =>
    intro acc m h p hp v hv f hf
    simp only [validateParametersAux] at h
    rcases hop : optf q.name with _ | w
    · simp only [hop] at h
      rcases hq : q.required
      · simp only [hq, Bool.false_eq_true, if_false] at h
        rcases List.mem_cons.mp hp with rfl | hmem
        · rw [hop] at hv
          cases hv
        · exact ih acc m h p hmem v hv f hf
      · simp [hq] at h
    · simp only [hop] at h
      rcases List.mem_cons.mp hp with rfl | hmem
      · rw [hop] at hv
        cases hv
        rw [hf] at h
        rcases hr : f v p.validation
        · simp [hr] at h
        · rfl
      · rcases hlk : ParameterValidators.lookup q.ptype with _ | g
        · simp only [hlk] at h
          exact ih _ m h p hmem v hv f hf
        · simp only [hlk] at h
          rcases hr : g w q.validation
          · simp [hr] at h
          · simp only [hr, if_true] at h
            exact ih _ m h p hmem v hv f hf

/-- Counterexample for C7: under a declared string constraint maxLength = 0
the value "a" has length 1 > 0, yet the string validator accepts it — a zero
bound is falsy in JavaScript and is skipped — so the parameter passes
validation and reaches the handler instead of being rejected. -/
theorem string_validator_maxLength_zero_cex :
    ParameterValidators.string (.vstr "a") ⟨none, some 0, none, none, none⟩ = true
    ∧ ¬("a".length ≤ 0)
    ∧ CommandTemplate.validateParameters
        [⟨"message", "string", true, ⟨none, some 0, none, none, none⟩⟩]
        (fun n => if n = "message" then some (.vstr "a") else none)
      = .valid [("message", .vstr "a")] :=
  ⟨rfl, by decide, rfl⟩

/-- C7 (amended): a required parameter whose extracted value is absent or
null is rejected with a message stating that the parameter is required; a
present value that fails its type-specific validator is rejected with a
message naming that parameter; for strings the validator requires text,
enforces minLength and maxLength only when set to a nonzero value (a zero
bound is skipped), and enforces the pattern whenever set; and when every
parameter passes, the handler receives exactly the extracted values,
unmodified, keyed by their declared names in schema order. -/
theorem validateParameters_spec :
    (∀ (ps : List CommandParameter) (optf : String → Option OptionValue)
        (m : List (String × OptionValue)),
      CommandTemplate.validateParameters ps optf = .valid m →
      m = ps.filterMap (fun p => (optf p.name).map (fun v => (p.name, v))))
    ∧ (∀ (ps : List CommandParameter) (optf : String → Option OptionValue)
        (m : List (String × OptionValue)),
        CommandTemplate.validateParameters ps optf = .valid m →
        ∀ p ∈ ps, p.required = true → optf p.name ≠ none)
    ∧ (∀ (ps : List CommandParameter) (optf : String → Option OptionValue)
        (m : List (String × OptionValue)),
        CommandTemplate.validateParameters ps optf = .valid m →
        ∀ p ∈ ps, ∀ v, optf p.name = some v →
        ∀ f, ParameterValidators.lookup p.ptype = some f → f v p.validation = true)
    ∧ (∀ (p : CommandParameter) (rest : List CommandParameter)
        (optf : String → Option OptionValue),
        p.required = true → optf p.name = none →
        CommandTemplate.validateParameters (p :: rest) optf
          = .invalid ("Parameter '" ++ p.name ++ "' is required"))
    ∧ (∀ (p : CommandParameter) (rest : List CommandParameter)
        (optf : String → Option OptionValue) (v : OptionValue)
        (f : OptionValue → ValidationOptions → Bool),
        optf p.name = some v → ParameterValidators.lookup p.ptype = some f →
        f v p.validation = false →
        CommandTemplate.validateParameters (p :: rest) optf
          = .invalid ("Parameter '" ++ p.name ++ "' is invalid"))
    ∧ (∀ (s : String) (opts : ValidationOptions),
        ParameterValidators.string (.vstr s) opts = true ↔
          ((∀ k, opts.minLength = some k → k ≠ 0 → k ≤ s.length)
           ∧ (∀ k, opts.maxLength = some k → k ≠ 0 → s.length ≤ k)
           ∧ (∀ q, opts.pattern = some q → q s = true)))
    ∧ (∀ (n : Int) (opts : ValidationOptions),
        ParameterValidators.string (.vint n) opts = false)
    ∧ (∀ (b : Bool) (opts : ValidationOptions),
        ParameterValidators.string (.vbool b) opts = false) := by
  refine ⟨?_, ?_, ?_, ?_, ?_, ?_, ?_, ?_⟩
  · intro ps optf m h
    simpa using validateParametersAux_valid_params optf ps [] m h
  · intro ps optf m h
    exact validateParametersAux_valid_required optf ps [] m h
  · intro ps optf m h
    exact validateParametersAux_valid_checked optf ps [] m h
  · intro p rest optf hreq hop
    unfold CommandTemplate.validateParameters validateParametersAux
    simp [hop, hreq]
  · intro p rest optf v f hop hlk hv
    unfold CommandTemplate.validateParameters validateParametersAux
    simp [hop, hlk, hv]
  · intro s opts
    obtain ⟨mn, mx, pat, mi, ma⟩ := opts
    rcases mn with _ | k1 <;> rcases mx with _ | k2 <;> rcases pat with _ | q <;>
      simp [ParameterValidators.string, Bool.and_eq_true, decide_eq_true_iff,
        or_iff_not_imp_left, and_assoc]
  · intro n opts
    rfl
  · intro b opts
    rfl

/-- Witness for C7 (amended): a required parameter "message" extracted as
null is rejected with the required message. -/
theorem validateParameters_spec_witness :
    (⟨"message", "string", true, ValidationOptions.empty⟩ : CommandParameter).required = true
    ∧ (fun _ => (none : Option OptionValue))
        (⟨"message", "string", true, ValidationOptions.empty⟩ : CommandParameter).name = none
    ∧ CommandTemplate.validateParameters
        [⟨"message", "string", true, ValidationOptions.empty⟩] (fun _ => none)
      = .invalid ("Parameter '" ++ "message" ++ "' is required") :=
  ⟨rfl, rfl,
    validateParameters_spec.2.2.2.1
      ⟨"message", "string", true, ValidationOptions.empty⟩ [] (fun _ => none) rfl rfl⟩
